import Mathlib

/-!
Shallow embedding of the sheet-to-catalog reconciliation engine.

Sources embedded below:
  - src/app/database/database.py        (clean_price, save_product_to_db)
  - src/app/excel_sheets/sheets_client.py
      (GoogleSheetsClient.get_all_products, _validate_product_record,
       watch_for_changes)
  - src/app/shopify/shopify_client.py
      (create_shopify_product, update_shopify_product, find_product_by_sku,
       get_all_shopify_products, sync_sheets_to_shopify)

Modelling conventions:
  - Python strings are `String`; sheet cell values are strings.
  - Python float values produced by `float(...)` are modelled exactly as
    sign/mantissa/decimal-scale triples (`PyFloat`); every numeric literal
    the repository actually handles is a short decimal, which both binary
    floats and this representation carry exactly.  `PyFloat.toRat` gives
    the rational value.
  - Remote HTTP traffic is modelled by a deterministic oracle `RemoteEnv`
    giving status codes and bodies per request; a transport exception is
    observationally identical to a non-success status in every embedded
    function (each caller catches it and takes the same branch), so both
    are represented by a non-success status code.
  - Each remote request is recorded in a transcript of `RemoteCall`s.
  - The local postgres mirror is a list of rows keyed by part_no.
-/

/-- Whitespace test matching CPython str.strip / float tolerance:
space, tab, LF, CR, VT, FF. -/
def pyWsChar (c : Char) : Bool :=
  c == ' ' || c == Char.ofNat 9 || c == Char.ofNat 10 ||
  c == Char.ofNat 13 || c == Char.ofNat 11 || c == Char.ofNat 12

/-- Python str.strip(): drop whitespace from both ends. -/
def pyStrip (s : String) : String :=
  String.mk (((s.data.dropWhile pyWsChar).reverse.dropWhile pyWsChar).reverse)

/-- Numeric value of a list of decimal digit characters. -/
def digitsVal (cs : List Char) : Nat :=
  cs.foldl (fun n c => n * 10 + (c.toNat - 48)) 0

/-- Exact model of a CPython float produced by `float(...)` on decimal input:
value is `(-1 if neg) * mant / 10 ^ scale`.  All decimals in this repository
are short, so the binary-float rounding step is the identity on them. -/
structure PyFloat where
  neg : Bool
  mant : Nat
  scale : Nat
deriving DecidableEq

/-- Rational value of a `PyFloat`. -/
def PyFloat.toRat (x : PyFloat) : ℚ :=
  (if x.neg then -1 else 1) * (x.mant : ℚ) / 10 ^ x.scale

/-- Parse an unsigned decimal literal (`123`, `123.45`, `123.`, `.45`),
returning mantissa and scale; `none` models a ValueError from `float`. -/
def parseUnsignedFloat (cs : List Char) : Option (Nat × Nat) :=
  let ip := cs.takeWhile Char.isDigit
  let rest := cs.dropWhile Char.isDigit
  match rest with
  | [] => if ip.isEmpty then none else some (digitsVal ip, 0)
  | c :: fp =>
    if c == '.' && fp.all Char.isDigit && (!ip.isEmpty || !fp.isEmpty) then
      some (digitsVal ip * 10 ^ fp.length + digitsVal fp, fp.length)
    else none

/-- Python `float(s)` for string input: surrounding whitespace tolerated,
optional sign, decimal integer/fraction forms.  Exponent, underscore and
inf/nan forms are not modelled; none occur in the sheet data or the spec,
and an input using them only widens the set this model maps to `none`. -/
def pyFloatOfString (s : String) : Option PyFloat :=
  match (pyStrip s).data with
  | '-' :: rest => (parseUnsignedFloat rest).map (fun p => ⟨true, p.1, p.2⟩)
  | '+' :: rest => (parseUnsignedFloat rest).map (fun p => ⟨false, p.1, p.2⟩)
  | cs => (parseUnsignedFloat cs).map (fun p => ⟨false, p.1, p.2⟩)

/-- Float zero, the fallback value of clean_price. -/
def pyFloatZero : PyFloat := ⟨false, 0, 0⟩

/-- database.clean_price: empty/falsy input gives 0.0; otherwise strip the
string, delete every comma, ASCII space and ASCII dollar sign (the source
contains two replace calls for the dollar; both literals are the ASCII
dollar byte, so no non-ASCII currency symbol is ever removed), return 0.0
if nothing is left, else `float(...)` with ValueError caught as 0.0. -/
def clean_price (s : String) : PyFloat :=
  if s = "" then pyFloatZero
  else
    let t := pyStrip s
    let u := String.mk (t.data.filter (fun c => !(c == ',' || c == ' ' || c == '$')))
    if u = "" then pyFloatZero
    else
      match pyFloatOfString u with
      | some q => q
      | none => pyFloatZero

/-- Python `int(f)` on a float: truncation toward zero. -/
def PyFloat.trunc (x : PyFloat) : Int :=
  let m := x.mant / 10 ^ x.scale
  if x.neg then -(m : Int) else (m : Int)

/-- Model of `int(float(s))` on a weight cell: `none` models the ValueError
raised (and caught by the enclosing try) on unparsable input. -/
def parseWeight (s : String) : Option Int :=
  (pyFloatOfString s).map PyFloat.trunc

/-- One raw row of the VOIP worksheet under its five headers, as returned
by `sheet.get_all_records()`. -/
structure RawRow where
  part_no : String
  price : String
  weight : String
  tag : String
  collection : String
deriving DecidableEq

/-- One validated source record produced by get_all_products: the five
normalized (stripped) cell values plus the provenance metadata keys
`_row_number` and `_sheet_name` added by the reader. -/
structure SheetRecord where
  part_no : String
  price : String
  weight : String
  tag : String
  collection : String
  row_number : Nat
  sheet_name : String
deriving DecidableEq

/-- Blank-row test of get_all_products:
`not any(str(value).strip() for value in record.values())`. -/
def rowIsBlank (r : RawRow) : Bool :=
  pyStrip r.part_no == "" && pyStrip r.price == "" && pyStrip r.weight == "" &&
  pyStrip r.tag == "" && pyStrip r.collection == ""

/-- Value normalization plus metadata attachment for one kept row at sheet
row number `i`. -/
def normalizeRow (i : Nat) (sheetName : String) (r : RawRow) : SheetRecord :=
  ⟨pyStrip r.part_no, pyStrip r.price, pyStrip r.weight,
   pyStrip r.tag, pyStrip r.collection, i, sheetName⟩

/-- sheets_client._validate_product_record: the only required field is
part_no; it must be truthy (non-empty) after normalization. -/
def validate_product_record (sr : SheetRecord) : Bool :=
  sr.part_no != ""

/-- Row loop of get_all_products, carrying the enumerate counter that
starts at 2 (sheet row 1 holds the headers). -/
def get_all_products_aux (sheetName : String) : Nat → List RawRow → List SheetRecord
  | _, [] => []
  | i, r :: rs =>
    if rowIsBlank r then get_all_products_aux sheetName (i + 1) rs
    else
      let sr := normalizeRow i sheetName r
      if validate_product_record sr then sr :: get_all_products_aux sheetName (i + 1) rs
      else get_all_products_aux sheetName (i + 1) rs

/-- sheets_client.GoogleSheetsClient.get_all_products on a successfully
fetched sheet: normalize, skip blank rows, drop rows failing validation,
attach row-number and sheet-name metadata. -/
def get_all_products (rows : List RawRow) (sheetName : String) : List SheetRecord :=
  get_all_products_aux sheetName 2 rows

/-- Lexicographic code-point comparison of character lists: the ordering
Python uses on strings. -/
def charListLe : List Char → List Char → Bool
  | [], _ => true
  | _ :: _, [] => false
  | a :: as, b :: bs =>
    if a.toNat < b.toNat then true
    else if b.toNat < a.toNat then false
    else charListLe as bs

/-- Ordering used by Python sorted with the part_no value as sort key. -/
def recLe (a b : SheetRecord) : Prop :=
  charListLe a.part_no.data b.part_no.data = true

instance : DecidableRel recLe :=
  fun a b => inferInstanceAs (Decidable (_ = true))

/-- Strict companion of `recLe`, used to identify sorted permutations. -/
def recLt (a b : SheetRecord) : Prop := recLe a b ∧ a.part_no ≠ b.part_no

/-- Stable ascending sort by part_no, as performed by Python sorted with a
key function (any stable sort computes the same list). -/
def sortRecords (l : List SheetRecord) : List SheetRecord :=
  List.insertionSort recLe l

/-- Single quote character used by Python repr of strings. -/
def pyQuote : String := String.singleton (Char.ofNat 39)

/-- Python repr of a string value (the sheet data contains no quotes or
escape-needing characters, so repr is plain quoting). -/
def quoteStr (s : String) : String := pyQuote ++ s ++ pyQuote

/-- Dict item with a string value, as printed by `str(dict)`. -/
def kvS (k v : String) : String := quoteStr k ++ ": " ++ quoteStr v

/-- Dict item with an int value, as printed by `str(dict)`. -/
def kvN (k : String) (n : Nat) : String := quoteStr k ++ ": " ++ toString n

/-- Python `str(...)` of one normalized record dict.  Key order is dict
insertion order: the five normalized sheet columns, then the metadata keys
`_row_number` and `_sheet_name` appended by get_all_products. -/
def reprRecord (r : SheetRecord) : String :=
  "\x7b" ++ kvS "part_no" r.part_no ++ ", " ++ kvS "price" r.price ++ ", " ++
  kvS "weight" r.weight ++ ", " ++ kvS "tag" r.tag ++ ", " ++
  kvS "collection" r.collection ++ ", " ++ kvN "_row_number" r.row_number ++
  ", " ++ kvS "_sheet_name" r.sheet_name ++ "\x7d"

/-- Python `str(list_of_dicts)`. -/
def serializeRecords (l : List SheetRecord) : String :=
  "[" ++ String.intercalate ", " (l.map reprRecord) ++ "]"

/-- Deterministic stand-in for CPython `hash(str)`.  watch_for_changes only
relies on the hash being a fixed deterministic function of the string within
one process; it is modelled by a fixed 64-bit string hash. -/
def strHash (s : String) : Nat :=
  s.data.foldl (fun h c => (h * 31 + c.toNat) % (2 ^ 64)) 5381

/-- Change-detector fingerprint computed each cycle by watch_for_changes:
the hash of the str form of the record list sorted by part_no. -/
def fingerprint (l : List SheetRecord) : Nat :=
  strHash (serializeRecords (sortRecords l))

/-- One variant of a remote catalog product (the fields the engine reads). -/
structure ShopVariant where
  id : Nat
  sku : String
deriving DecidableEq

/-- One product of the remote catalog (the fields the engine reads). -/
structure ShopProduct where
  id : Nat
  variants : List ShopVariant
deriving DecidableEq

/-- One remote HTTP request issued by the engine, for transcripts. -/
inductive RemoteCall where
  | listProducts : RemoteCall
  | createProduct : String → RemoteCall
  | getProduct : Nat → RemoteCall
  | putProduct : Nat → RemoteCall
  | putVariant : Nat → RemoteCall
deriving DecidableEq

/-- One row of the local postgres mirror table `products`. -/
structure MirrorRow where
  part_no : String
  price : PyFloat
  weight : Int
  tag : String
  collection : String
  shopify_id : Option Nat
deriving DecidableEq

/-- database.save_product_to_db upsert: UPDATE keyed on part_no, INSERT when
no row matched. -/
def upsertMirror (m : List MirrorRow) (row : MirrorRow) : List MirrorRow :=
  if m.any (fun r => r.part_no == row.part_no) then
    m.map (fun r => if r.part_no == row.part_no then row else r)
  else m ++ [row]

/-- Deterministic oracle for the external world of one cycle: the remote
catalog state, the status code (and body) each request would receive, and
whether the local database is reachable.  A transport exception behaves
exactly like a non-success status in every embedded caller, so both are
encoded as a non-success status. -/
structure RemoteEnv where
  catalog : List ShopProduct
  listStatus : Nat
  createStatus : String → Nat
  createdId : String → Nat
  getStatus : Nat → Nat
  getBody : Nat → ShopProduct
  putProductStatus : Nat → Nat
  putVariantStatus : Nat → Nat
  dbOk : Bool

/-- Page size requested by get_all_shopify_products; Shopify returns at most
this many products per request. -/
def pageLimit : Nat := 250

/-- shopify_client.get_all_shopify_products: issues a single
`GET products.json?limit=250`; on status 200 it extends its empty
accumulator with that one page; on any other status, and on a transport
exception, it falls through and returns the accumulator unchanged, i.e.
the empty list.  No further page is ever requested. -/
def get_all_shopify_products (env : RemoteEnv) : List ShopProduct :=
  if env.listStatus = 200 then env.catalog.take pageLimit else []

/-- shopify_client.find_product_by_sku: first product having a variant whose
sku equals the given one. -/
def find_product_by_sku (sku : String) (products : List ShopProduct) : Option ShopProduct :=
  products.find? (fun p => p.variants.any (fun v => v.sku == sku))

/-- database.save_product_to_db: opens a connection (failure caught, returns
False), parses price/weight (a ValueError is caught, returns False), then
upserts keyed on part_no and returns True.  Returns the success flag and the
resulting mirror state. -/
def save_product_to_db (env : RemoteEnv) (sr : SheetRecord) (sid : Option Nat)
    (m : List MirrorRow) : Bool × List MirrorRow :=
  if env.dbOk then
    match parseWeight sr.weight with
    | some w =>
      (true, upsertMirror m ⟨sr.part_no, clean_price sr.price, w, sr.tag, sr.collection, sid⟩)
    | none => (false, m)
  else (false, m)

/-- Result of one remote write routine: its truthiness as seen by the sync
loop, the remote requests it issued, the mirror state afterwards, and
whether save_product_to_db was invoked. -/
structure WriteResult where
  ok : Bool
  calls : List RemoteCall
  mirror : List MirrorRow
  savedMirror : Bool
deriving DecidableEq

/-- shopify_client.create_shopify_product: parse the row fields (a weight
ValueError is caught and yields False before any request), POST the new
product; on 201 save the assigned id to the mirror (result ignored) and
return True, otherwise return a falsy value. -/
def create_shopify_product (env : RemoteEnv) (sr : SheetRecord)
    (m : List MirrorRow) : WriteResult :=
  match parseWeight sr.weight with
  | none => ⟨false, [], m, false⟩
  | some _ =>
    if env.createStatus sr.part_no = 201 then
      let s := save_product_to_db env sr (some (env.createdId sr.part_no)) m
      ⟨true, [RemoteCall.createProduct sr.part_no], s.2, true⟩
    else ⟨false, [RemoteCall.createProduct sr.part_no], m, false⟩

/-- shopify_client.update_shopify_product: parse the row fields (weight
ValueError caught, False, no request), GET the product to read its first
variant id (non-200 or missing variant: False), PUT the product-level
fields; on 200 PUT the variant-level fields; on 200 save to the mirror
(result ignored) and return True; any failed step returns False. -/
def update_shopify_product (env : RemoteEnv) (pid : Nat) (sr : SheetRecord)
    (m : List MirrorRow) : WriteResult :=
  match parseWeight sr.weight with
  | none => ⟨false, [], m, false⟩
  | some _ =>
    if env.getStatus pid = 200 then
      match (env.getBody pid).variants with
      | [] => ⟨false, [RemoteCall.getProduct pid], m, false⟩
      | v :: _ =>
        if env.putProductStatus pid = 200 then
          if env.putVariantStatus v.id = 200 then
            let s := save_product_to_db env sr (some pid) m
            ⟨true, [RemoteCall.getProduct pid, RemoteCall.putProduct pid,
                    RemoteCall.putVariant v.id], s.2, true⟩
          else ⟨false, [RemoteCall.getProduct pid, RemoteCall.putProduct pid,
                        RemoteCall.putVariant v.id], m, false⟩
        else ⟨false, [RemoteCall.getProduct pid, RemoteCall.putProduct pid], m, false⟩
    else ⟨false, [RemoteCall.getProduct pid], m, false⟩

/-- Per-record outcome of one sync iteration. -/
inductive Outcome where
  | created | updated | failed | skipped
deriving DecidableEq

/-- Observable effect of one loop iteration of sync_sheets_to_shopify. -/
structure StepResult where
  outcome : Outcome
  calls : List RemoteCall
  mirror : List MirrorRow
deriving DecidableEq

/-- Body of the per-record loop of sync_sheets_to_shopify: empty part_no is
skipped with no request; otherwise the record is looked up by SKU in the
fetched product list and either updated or created, the outcome classified
by the truthiness of the write routine. -/
def syncStep (env : RemoteEnv) (shopifyProducts : List ShopProduct)
    (sr : SheetRecord) (m : List MirrorRow) : StepResult :=
  if sr.part_no = "" then ⟨Outcome.skipped, [], m⟩
  else
    match find_product_by_sku sr.part_no shopifyProducts with
    | some p =>
      let u := update_shopify_product env p.id sr m
      ⟨if u.ok then Outcome.updated else Outcome.failed, u.calls, u.mirror⟩
    | none =>
      let c := create_shopify_product env sr m
      ⟨if c.ok then Outcome.created else Outcome.failed, c.calls, c.mirror⟩

/-- Cycle summary of sync_sheets_to_shopify: the four counters, the full
remote transcript, the final mirror state, and the per-record outcomes. -/
structure SyncResult where
  created : Nat
  updated : Nat
  failed : Nat
  skipped : Nat
  calls : List RemoteCall
  mirror : List MirrorRow
  outcomes : List Outcome
deriving DecidableEq

/-- Record loop of sync_sheets_to_shopify over the remaining records. -/
def syncAux (env : RemoteEnv) (sp : List ShopProduct) :
    List SheetRecord → List MirrorRow → SyncResult
  | [], m => ⟨0, 0, 0, 0, [], m, []⟩
  | sr :: rs, m =>
    let s := syncStep env sp sr m
    let rest := syncAux env sp rs s.mirror
    ⟨(if s.outcome = Outcome.created then 1 else 0) + rest.created,
     (if s.outcome = Outcome.updated then 1 else 0) + rest.updated,
     (if s.outcome = Outcome.failed then 1 else 0) + rest.failed,
     (if s.outcome = Outcome.skipped then 1 else 0) + rest.skipped,
     s.calls ++ rest.calls, rest.mirror, s.outcome :: rest.outcomes⟩

/-- shopify_client.sync_sheets_to_shopify: fetch the remote product list
(one request, always attempted), then process every sheet record in order,
returning the four counters. -/
def sync_sheets_to_shopify (env : RemoteEnv) (sheetProducts : List SheetRecord)
    (m : List MirrorRow) : SyncResult :=
  let sp := get_all_shopify_products env
  let r := syncAux env sp sheetProducts m
  { r with calls := RemoteCall.listProducts :: r.calls }

/-- One iteration of sheets_client.watch_for_changes: recompute the
fingerprint of the current data; invoke the sync callback when there is no
previous fingerprint or the fingerprint changed; store the new fingerprint.
Returns (stored fingerprint, whether the callback ran, cycle result).
The callback (main.sync_callback) catches its own exceptions, so the
fingerprint store always executes after a fetch succeeds. -/
def pollCycle (env : RemoteEnv) (lastHash : Option Nat) (data : List SheetRecord)
    (m : List MirrorRow) : Option Nat × Bool × SyncResult :=
  let h := fingerprint data
  let invoke :=
    match lastHash with
    | none => true
    | some prev => h != prev
  if invoke then (some h, true, sync_sheets_to_shopify env data m)
  else (some h, false, ⟨0, 0, 0, 0, [], m, []⟩)

/-- Success assumption on the remote oracle: every request the engine can
issue would succeed. -/
def RemoteEnv.allOk (env : RemoteEnv) : Prop :=
  env.listStatus = 200 ∧ (∀ s, env.createStatus s = 201) ∧
  (∀ i, env.getStatus i = 200) ∧ (∀ i, env.putProductStatus i = 200) ∧
  (∀ v, env.putVariantStatus v = 200)

/-- Consistency of the remote oracle: reading a catalog product by id
returns that product. -/
def RemoteEnv.consistent (env : RemoteEnv) : Prop :=
  ∀ p ∈ env.catalog, env.getBody p.id = p

/-! Concrete fixtures used by closed evaluations of the embedded code. -/

/-- Raw sheet row with part number A1. -/
def rowA1x : RawRow := ⟨"A1", "1", "10", "", ""⟩

/-- Raw sheet row with part number B2. -/
def rowB2x : RawRow := ⟨"B2", "2", "20", "", ""⟩

/-- Raw sheet row whose weight cell is not numeric. -/
def rowW1 : RawRow := ⟨"W1", "5", "abc", "", ""⟩

/-- Validated record of `rowW1` at sheet row 2. -/
def recW1 : SheetRecord := ⟨"W1", "5", "abc", "", "", 2, "VOIP"⟩

/-- Validated record with part number A1. -/
def recA1 : SheetRecord := ⟨"A1", "$10.00", "100", "phones", "Phones", 2, "VOIP"⟩

/-- Record sharing part number A1 with `recDupB` but differing elsewhere. -/
def recDupA : SheetRecord := ⟨"A1", "1", "10", "", "", 2, "VOIP"⟩

/-- Record sharing part number A1 with `recDupA` but differing elsewhere. -/
def recDupB : SheetRecord := ⟨"A1", "2", "20", "", "", 3, "VOIP"⟩

/-- Remote catalog product whose single variant carries sku A1. -/
def prodA1 : ShopProduct := ⟨501, [⟨601, "A1"⟩]⟩

/-- Oracle where the catalog listing request fails with HTTP 500 while the
remote already holds `prodA1`; every other request would succeed. -/
def envListDown : RemoteEnv :=
  ⟨[prodA1], 500, fun _ => 201, fun _ => 9001, fun _ => 200, fun _ => prodA1,
   fun _ => 200, fun _ => 200, true⟩

/-- Oracle where every request succeeds and the catalog holds `prodA1`. -/
def envOkA1 : RemoteEnv :=
  ⟨[prodA1], 200, fun _ => 201, fun _ => 9001, fun _ => 200,
   fun i => if i = 501 then prodA1 else ⟨i, []⟩, fun _ => 200, fun _ => 200, true⟩

/-- Oracle with an empty remote catalog where every request succeeds. -/
def envEmptyOk : RemoteEnv :=
  ⟨[], 200, fun _ => 201, fun _ => 1, fun _ => 200, fun _ => ⟨0, []⟩,
   fun _ => 200, fun _ => 200, true⟩

/-- Remote catalog of 250 filler products (one full page). -/
def fillerCatalog : List ShopProduct :=
  (List.range pageLimit).map (fun i => ⟨i, [⟨1000 + i, "FILLER"⟩]⟩)

/-- Page-251 product, with sku X250, not on the first page. -/
def prodOverflow : ShopProduct := ⟨250, [⟨1250, "X250"⟩]⟩

/-- Oracle whose catalog holds 251 products; every request succeeds. -/
def envBig : RemoteEnv :=
  ⟨fillerCatalog ++ [prodOverflow], 200, fun _ => 201, fun _ => 9001,
   fun _ => 200, fun _ => prodOverflow, fun _ => 200, fun _ => 200, true⟩

/-- Source record matching the sku of `prodOverflow`. -/
def recX250 : SheetRecord := ⟨"X250", "5", "50", "", "", 2, "VOIP"⟩

/-! Order lemmas for the part_no comparison. -/

/-- Characters with equal code points are equal. -/
theorem charToNat_inj {a b : Char} (h : a.toNat = b.toNat) : a = b := by
  rcases a with ⟨⟨av, hav⟩, pa⟩
  rcases b with ⟨⟨bv, hbv⟩, pb⟩
  simp [Char.toNat, UInt32.toNat] at h
  subst h
  rfl

/-- Strings with equal character lists are equal. -/
theorem strEqOfDataEq {s t : String} (h : s.data = t.data) : s = t := by
  cases s; cases t; exact congrArg String.mk h

/-- Totality of the lexicographic comparison. -/
theorem charListLe_total : ∀ as bs, charListLe as bs = true ∨ charListLe bs as = true
  | [], _ => Or.inl rfl
  | _ :: _, [] => Or.inr rfl
  | a :: as, b :: bs => by
    by_cases h1 : a.toNat < b.toNat
    · left; simp [charListLe, h1]
    · by_cases h2 : b.toNat < a.toNat
      · right; simp [charListLe, h2]
      · cases charListLe_total as bs with
        | inl ih => left; simp [charListLe, h1, h2, ih]
        | inr ih => right; simp [charListLe, h1, h2, ih]

/-- Transitivity of the lexicographic comparison. -/
theorem charListLe_trans : ∀ as bs cs, charListLe as bs = true →
    charListLe bs cs = true → charListLe as cs = true
  | [], _, _ => fun _ _ => rfl
  | _ :: _, [], _ => fun h1 _ => by simp [charListLe] at h1
  | _ :: _, _ :: _, [] => fun _ h2 => by simp [charListLe] at h2
  | a :: as, b :: bs, c :: cs => fun h1 h2 => by
    simp only [charListLe] at h1 h2 ⊢
    split_ifs at h1 h2 ⊢ <;>
      first
        | rfl
        | (exfalso; omega)
        | (exact charListLe_trans as bs cs h1 h2)
        | simp_all

/-- Antisymmetry of the lexicographic comparison. -/
theorem charListLe_antisymm : ∀ as bs, charListLe as bs = true →
    charListLe bs as = true → as = bs
  | [], [] => fun _ _ => rfl
  | [], _ :: _ => fun _ h2 => by simp [charListLe] at h2
  | _ :: _, [] => fun h1 _ => by simp [charListLe] at h1
  | a :: as, b :: bs => fun h1 h2 => by
    by_cases hlt : a.toNat < b.toNat
    · have hn : ¬ b.toNat < a.toNat := by omega
      simp [charListLe, hlt, hn] at h2
    · by_cases hgt : b.toNat < a.toNat
      · simp [charListLe, hlt, hgt] at h1
      · have hab : a = b := charToNat_inj (by omega)
        have htl : as = bs :=
          charListLe_antisymm as bs (by simpa [charListLe, hlt, hgt] using h1)
            (by simpa [charListLe, hlt, hgt] using h2)
        rw [hab, htl]

instance : IsTotal SheetRecord recLe :=
  ⟨fun a b => charListLe_total a.part_no.data b.part_no.data⟩

instance : IsTrans SheetRecord recLe :=
  ⟨fun _ _ _ h1 h2 => charListLe_trans _ _ _ h1 h2⟩

instance : IsAntisymm SheetRecord recLt :=
  ⟨fun _ _ h1 h2 =>
    (h1.2 (strEqOfDataEq (charListLe_antisymm _ _ h1.1 h2.1))).elim⟩

/-- A sort of records with pairwise distinct part numbers is strictly
sorted. -/
theorem sortRecords_sorted_lt (l : List SheetRecord)
    (hd : List.Pairwise (fun a b => a.part_no ≠ b.part_no) l) :
    List.Sorted recLt (sortRecords l) := by
  have hs : List.Sorted recLe (sortRecords l) := List.sorted_insertionSort recLe l
  have hd2 : List.Pairwise (fun a b => a.part_no ≠ b.part_no) (sortRecords l) :=
    hd.perm (List.perm_insertionSort recLe l).symm (fun h => Ne.symm h)
  exact List.Pairwise.and hs hd2

/-- Permuted snapshots with pairwise distinct part numbers sort to the same
list. -/
theorem sortRecords_eq_of_perm (l l2 : List SheetRecord) (hp : List.Perm l l2)
    (hd : List.Pairwise (fun a b => a.part_no ≠ b.part_no) l) :
    sortRecords l = sortRecords l2 := by
  have hd2 := hd.perm hp (fun h => Ne.symm h)
  have hperm : List.Perm (sortRecords l) (sortRecords l2) :=
    (List.perm_insertionSort recLe l).trans
      (hp.trans (List.perm_insertionSort recLe l2).symm)
  exact List.eq_of_perm_of_sorted hperm (sortRecords_sorted_lt l hd)
    (sortRecords_sorted_lt l2 hd2)

/-- The fingerprint stored by a poll cycle is always the fingerprint of the
data that cycle fetched, whether or not the callback ran. -/
theorem pollCycle_fst (env : RemoteEnv) (lh : Option Nat) (d : List SheetRecord)
    (m : List MirrorRow) : (pollCycle env lh d m).1 = some (fingerprint d) := by
  cases lh <;> simp [pollCycle, apply_ite Prod.fst] <;> split <;> rfl

/-- Structural facts about the record loop: one outcome per record, counters
counting outcomes, counters summing to the record count. -/
theorem syncAux_spec (env : RemoteEnv) (sp : List ShopProduct) :
    ∀ (recs : List SheetRecord) (m : List MirrorRow),
      (syncAux env sp recs m).outcomes.length = recs.length ∧
      (syncAux env sp recs m).created =
        (syncAux env sp recs m).outcomes.count Outcome.created ∧
      (syncAux env sp recs m).updated =
        (syncAux env sp recs m).outcomes.count Outcome.updated ∧
      (syncAux env sp recs m).failed =
        (syncAux env sp recs m).outcomes.count Outcome.failed ∧
      (syncAux env sp recs m).skipped =
        (syncAux env sp recs m).outcomes.count Outcome.skipped ∧
      (syncAux env sp recs m).created + (syncAux env sp recs m).updated +
        (syncAux env sp recs m).failed + (syncAux env sp recs m).skipped =
          recs.length
  | [], m => by simp [syncAux]
  | sr :: rs, m => by
    have ih := syncAux_spec env sp rs (syncStep env sp sr m).mirror
    obtain ⟨ih1, ih2, ih3, ih4, ih5, ih6⟩ := ih
    simp only [syncAux, List.length_cons, List.count_cons]
    refine ⟨by simp [ih1], ?_, ?_, ?_, ?_, ?_⟩ <;>
      rcases h : (syncStep env sp sr m).outcome <;>
        simp [h, ih2, ih3, ih4, ih5] <;> omega

/-- C1: contrary to the claim, a failed catalog listing does not stop the
cycle: get_all_shopify_products swallows the HTTP 500 and returns the empty
list, indistinguishable from an empty catalog, and sync_sheets_to_shopify
proceeds to issue one remote create call for a record whose sku already
exists remotely, counting it as created. -/
theorem claim_c1 :
    get_all_shopify_products envListDown = [] ∧
    (sync_sheets_to_shopify envListDown [recA1] []).calls.count
      (RemoteCall.createProduct "A1") = 1 ∧
    (sync_sheets_to_shopify envListDown [recA1] []).created = 1 := by
  refine ⟨by decide, by decide, by decide⟩

set_option maxRecDepth 16384 in
/-- C4: contrary to the claim, the catalog listing is not complete when the
remote paginates: with 251 remote products the single limit-250 request
leaves one product out of the list handed to the SKU lookup, and a source
record bearing that missing sku is classified CREATE (a duplicate). -/
theorem claim_c4 :
    envBig.catalog.length = 251 ∧
    (get_all_shopify_products envBig).length = 250 ∧
    prodOverflow ∈ envBig.catalog ∧
    prodOverflow ∉ get_all_shopify_products envBig ∧
    (syncStep envBig (get_all_shopify_products envBig) recX250 []).outcome =
      Outcome.created := by
  refine ⟨by decide, by decide, by decide, by decide, by decide⟩

/-- C5: price parsing is total with the documented examples, and the ASCII
dollar sign is stripped; but contrary to the claim the non-ASCII fullwidth
dollar sign U+FF04 is not stripped (both replace calls in the source name
the ASCII dollar), so that input falls through to the unparsable branch and
yields 0.0 instead of the numeric value. -/
theorem claim_c5 :
    (clean_price "$1,234.50").toRat = (1234.50 : ℚ) ∧
    (clean_price "").toRat = 0 ∧
    (clean_price "abc").toRat = 0 ∧
    (clean_price "1 234.50").toRat = (1234.50 : ℚ) ∧
    (clean_price "$5").toRat = 5 ∧
    (clean_price (String.singleton (Char.ofNat 65284) ++ "5")).toRat = 0 := by
  have h1 : clean_price "$1,234.50" = ⟨false, 123450, 2⟩ := by decide
  have h2 : clean_price "" = pyFloatZero := by decide
  have h3 : clean_price "abc" = pyFloatZero := by decide
  have h4 : clean_price "1 234.50" = ⟨false, 123450, 2⟩ := by decide
  have h5 : clean_price "$5" = ⟨false, 5, 0⟩ := by decide
  have h6 : clean_price (String.singleton (Char.ofNat 65284) ++ "5") = pyFloatZero := by
    decide
  rw [h1, h2, h3, h4, h5, h6]
  norm_num [PyFloat.toRat, pyFloatZero]

/-- C6: a cycle whose data has the fingerprint stored by the previous
completed cycle is a no-op: the callback is not invoked, no remote call is
issued, and the mirror is untouched. -/
theorem claim_c6 (env1 env2 : RemoteEnv) (last0 : Option Nat)
    (d : List SheetRecord) (m : List MirrorRow) :
    (pollCycle env2 (pollCycle env1 last0 d m).1 d
      (pollCycle env1 last0 d m).2.2.mirror).2.1 = false ∧
    (pollCycle env2 (pollCycle env1 last0 d m).1 d
      (pollCycle env1 last0 d m).2.2.mirror).2.2.calls = [] ∧
    (pollCycle env2 (pollCycle env1 last0 d m).1 d
      (pollCycle env1 last0 d m).2.2.mirror).2.2.mirror =
      (pollCycle env1 last0 d m).2.2.mirror := by
  rw [pollCycle_fst env1 last0 d m]
  refine ⟨?_, ?_, ?_⟩ <;> simp [pollCycle]

/-- C9: the cycle processes every record: it never aborts early, assigns
each record exactly one outcome, the counters count those outcomes, and the
four counters sum to the number of input records. -/
theorem claim_c9 (env : RemoteEnv) (recs : List SheetRecord) (m : List MirrorRow) :
    (sync_sheets_to_shopify env recs m).outcomes.length = recs.length ∧
    (sync_sheets_to_shopify env recs m).created =
      (sync_sheets_to_shopify env recs m).outcomes.count Outcome.created ∧
    (sync_sheets_to_shopify env recs m).updated =
      (sync_sheets_to_shopify env recs m).outcomes.count Outcome.updated ∧
    (sync_sheets_to_shopify env recs m).failed =
      (sync_sheets_to_shopify env recs m).outcomes.count Outcome.failed ∧
    (sync_sheets_to_shopify env recs m).skipped =
      (sync_sheets_to_shopify env recs m).outcomes.count Outcome.skipped ∧
    (sync_sheets_to_shopify env recs m).created +
      (sync_sheets_to_shopify env recs m).updated +
      (sync_sheets_to_shopify env recs m).failed +
      (sync_sheets_to_shopify env recs m).skipped = recs.length := by
  have h := syncAux_spec env (get_all_shopify_products env) recs m
  simpa [sync_sheets_to_shopify] using h

/-- C10: the outcome and the remote transcript of a create or update do not
depend on whether the local mirror database is reachable, and when it is
unreachable the write routine still returns normally with the mirror left
unchanged: a mirror failure after a successful remote write is swallowed. -/
theorem claim_c10 (env : RemoteEnv) (pid : Nat) (sr : SheetRecord)
    (m : List MirrorRow) (b : Bool) (sp : List ShopProduct) :
    (create_shopify_product { env with dbOk := b } sr m).ok =
      (create_shopify_product env sr m).ok ∧
    (create_shopify_product { env with dbOk := b } sr m).calls =
      (create_shopify_product env sr m).calls ∧
    (update_shopify_product { env with dbOk := b } pid sr m).ok =
      (update_shopify_product env pid sr m).ok ∧
    (update_shopify_product { env with dbOk := b } pid sr m).calls =
      (update_shopify_product env pid sr m).calls ∧
    (syncStep { env with dbOk := b } sp sr m).outcome =
      (syncStep env sp sr m).outcome ∧
    (create_shopify_product { env with dbOk := false } sr m).mirror = m ∧
    (update_shopify_product { env with dbOk := false } pid sr m).mirror = m := by
  have hcreate : ∀ (bb : Bool),
      (create_shopify_product { env with dbOk := bb } sr m).ok =
        (create_shopify_product env sr m).ok ∧
      (create_shopify_product { env with dbOk := bb } sr m).calls =
        (create_shopify_product env sr m).calls := by
    intro bb
    cases hpw : parseWeight sr.weight <;>
      by_cases hc : env.createStatus sr.part_no = 201 <;>
        simp [create_shopify_product, hpw, hc]
  have hupdate : ∀ (bb : Bool) (q : Nat),
      (update_shopify_product { env with dbOk := bb } q sr m).ok =
        (update_shopify_product env q sr m).ok ∧
      (update_shopify_product { env with dbOk := bb } q sr m).calls =
        (update_shopify_product env q sr m).calls := by
    intro bb q
    cases hpw : parseWeight sr.weight
    · simp [update_shopify_product, hpw]
    · by_cases h1 : env.getStatus q = 200
      · cases hv : (env.getBody q).variants with
        | nil => simp [update_shopify_product, hpw, h1, hv]
        | cons v vs =>
          by_cases h2 : env.putProductStatus q = 200 <;>
            by_cases h3 : env.putVariantStatus v.id = 200 <;>
              simp [update_shopify_product, hpw, h1, hv, h2, h3]
      · simp [update_shopify_product, hpw, h1]
  refine ⟨(hcreate b).1, (hcreate b).2, (hupdate b pid).1, (hupdate b pid).2,
    ?_, ?_, ?_⟩
  · by_cases hne : sr.part_no = ""
    · simp [syncStep, hne]
    · rcases hf : find_product_by_sku sr.part_no sp with _ | p
      · simp [syncStep, hne, hf, (hcreate b).1]
      · simp [syncStep, hne, hf, (hupdate b p.id).1]
  · cases hpw : parseWeight sr.weight <;>
      by_cases hc : env.createStatus sr.part_no = 201 <;>
        simp [create_shopify_product, save_product_to_db, hpw, hc]
  · cases hpw : parseWeight sr.weight
    · simp [update_shopify_product, hpw]
    · by_cases h1 : env.getStatus pid = 200
      · cases hv : (env.getBody pid).variants with
        | nil => simp [update_shopify_product, hpw, h1, hv]
        | cons v vs =>
          by_cases h2 : env.putProductStatus pid = 200 <;>
            by_cases h3 : env.putVariantStatus v.id = 200 <;>
              simp [update_shopify_product, save_product_to_db, hpw, h1, hv,
                h2, h3]
      · simp [update_shopify_product, hpw, h1]

/-- C7: in the update path the mirror upsert is invoked exactly when the
product-level and variant-level writes (and the reads they depend on)
succeeded, the returned truthiness coincides with that, and a falsy result
leaves the mirror unchanged. -/
theorem claim_c7 (env : RemoteEnv) (pid : Nat) (sr : SheetRecord)
    (m : List MirrorRow) :
    ((update_shopify_product env pid sr m).savedMirror = true ↔
      (env.getStatus pid = 200 ∧ env.putProductStatus pid = 200 ∧
        (∃ v, (env.getBody pid).variants.head? = some v ∧
          env.putVariantStatus v.id = 200) ∧ parseWeight sr.weight ≠ none)) ∧
    ((update_shopify_product env pid sr m).ok =
      (update_shopify_product env pid sr m).savedMirror) ∧
    ((update_shopify_product env pid sr m).ok = false →
      (update_shopify_product env pid sr m).mirror = m) := by
  cases hpw : parseWeight sr.weight
  · simp [update_shopify_product, hpw]
  · by_cases h1 : env.getStatus pid = 200
    · cases hv : (env.getBody pid).variants with
      | nil => simp [update_shopify_product, hpw, h1, hv]
      | cons v vs =>
        by_cases h2 : env.putProductStatus pid = 200 <;>
          by_cases h3 : env.putVariantStatus v.id = 200 <;>
            simp [update_shopify_product, hpw, h1, hv, h2, h3]
    · simp [update_shopify_product, hpw, h1]

/-- C7 witness: with an all-success oracle holding product 501 the update
path invokes the mirror upsert. -/
theorem claim_c7_witness :
    (update_shopify_product envOkA1 501 recA1 []).savedMirror = true :=
  (claim_c7 envOkA1 501 recA1 []).1.mpr
    ⟨rfl, rfl, ⟨⟨601, "A1"⟩, by decide, rfl⟩, by decide⟩

/-- C3: under a consistent all-success oracle, a record whose part_no is
empty is skipped with no remote call; a record absent from the fetched
listing is classified created with exactly one remote create call; a record
present in the listing is classified updated with exactly one product-level
and one variant-level update call (plus the variant-id read). -/
theorem claim_c3 (env : RemoteEnv) (sr : SheetRecord) (m : List MirrorRow)
    (hok : env.allOk) (hcons : env.consistent)
    (hw : parseWeight sr.weight ≠ none) :
    (sr.part_no = "" →
      syncStep env (get_all_shopify_products env) sr m =
        ⟨Outcome.skipped, [], m⟩) ∧
    (sr.part_no ≠ "" →
      find_product_by_sku sr.part_no (get_all_shopify_products env) = none →
      (syncStep env (get_all_shopify_products env) sr m).outcome =
        Outcome.created ∧
      (syncStep env (get_all_shopify_products env) sr m).calls =
        [RemoteCall.createProduct sr.part_no]) ∧
    (sr.part_no ≠ "" → ∀ p,
      find_product_by_sku sr.part_no (get_all_shopify_products env) = some p →
      (syncStep env (get_all_shopify_products env) sr m).outcome =
        Outcome.updated ∧
      ∃ v, p.variants.head? = some v ∧
        (syncStep env (get_all_shopify_products env) sr m).calls =
          [RemoteCall.getProduct p.id, RemoteCall.putProduct p.id,
           RemoteCall.putVariant v.id]) := by
  obtain ⟨hlist, hcreate, hget, hput, hputv⟩ := hok
  refine ⟨?_, ?_, ?_⟩
  · intro h
    simp [syncStep, h]
  · intro hne hfind
    cases hpw : parseWeight sr.weight with
    | none => exact absurd hpw hw
    | some w =>
      constructor <;>
        simp [syncStep, hne, hfind, create_shopify_product, hpw, hcreate]
  · intro hne p hfind
    have hmem : p ∈ get_all_shopify_products env :=
      List.mem_of_find?_eq_some hfind
    have hmem2 : p ∈ env.catalog := by
      have hga : get_all_shopify_products env = env.catalog.take pageLimit := by
        simp [get_all_shopify_products, hlist]
      rw [hga] at hmem
      exact List.mem_of_mem_take hmem
    have hbody : env.getBody p.id = p := hcons p hmem2
    have hpred := List.find?_some hfind
    cases hv : p.variants with
    | nil => rw [hv] at hpred; simp at hpred
    | cons v vs =>
      cases hpw : parseWeight sr.weight with
      | none => exact absurd hpw hw
      | some w =>
        refine ⟨?_, v, by simp [hv], ?_⟩ <;>
          simp [syncStep, hne, hfind, update_shopify_product, hpw, hget,
            hput, hputv, hbody, hv]

/-- C3 witness: under the all-success oracle holding product 501 with sku
A1, the record with part_no A1 is classified updated. -/
theorem claim_c3_witness :
    (syncStep envOkA1 (get_all_shopify_products envOkA1) recA1 []).outcome =
      Outcome.updated := by
  have hcons : envOkA1.consistent := fun p hp => by
    have hp2 : p = prodA1 := by simpa [envOkA1] using hp
    subst hp2
    decide
  have h := claim_c3 envOkA1 recA1 []
    ⟨rfl, fun _ => rfl, fun _ => rfl, fun _ => rfl, fun _ => rfl⟩
    hcons (by decide)
  exact (h.2.2 (by decide) prodA1 (by decide)).1

set_option maxRecDepth 100000 in
/-- C2 counterexample: the fingerprint is not independent of source row
order.  First conjunct: swapping two source rows changes the row-number
metadata stored inside each validated record, so the serialization hashed
after sorting differs and the fingerprints differ.  Second conjunct: two
records sharing a part_no keep their arrival order under the stable sort,
so permuting them also changes the fingerprint. -/
theorem claim_c2_counterexample :
    fingerprint (get_all_products [rowA1x, rowB2x] "VOIP") ≠
      fingerprint (get_all_products [rowB2x, rowA1x] "VOIP") ∧
    fingerprint [recDupA, recDupB] ≠ fingerprint [recDupB, recDupA] := by
  refine ⟨by decide, by decide⟩

/-- C2 amended: for validated-record lists whose part numbers are pairwise
distinct, the fingerprint is invariant under permutations of the list handed
to the change detector (each record kept with its metadata unchanged),
because the detector sorts by part_no before serializing and hashing. -/
theorem claim_c2 (l l2 : List SheetRecord) (hp : List.Perm l l2)
    (hd : List.Pairwise (fun a b => a.part_no ≠ b.part_no) l) :
    fingerprint l = fingerprint l2 := by
  unfold fingerprint
  rw [sortRecords_eq_of_perm l l2 hp hd]

/-- C2 witness: two concrete records with distinct part numbers give the
same fingerprint in either list order. -/
theorem claim_c2_witness :
    fingerprint [recA1, recW1] = fingerprint [recW1, recA1] :=
  claim_c2 [recA1, recW1] [recW1, recA1] (List.Perm.swap recW1 recA1 [])
    (by decide)

/-- C8 counterexample: a row whose weight cell is unparsable passes
validation (only part_no is checked), appears among the validated records
handed to the reconciler, and at write time yields a FAILED outcome for the
cycle (its parse error is caught per record, with no remote call issued). -/
theorem claim_c8_counterexample :
    validate_product_record recW1 = true ∧
    get_all_products [rowW1] "VOIP" = [recW1] ∧
    (syncStep envEmptyOk (get_all_shopify_products envEmptyOk) recW1 []).outcome =
      Outcome.failed ∧
    (syncStep envEmptyOk (get_all_shopify_products envEmptyOk) recW1 []).calls =
      [] := by
  refine ⟨by decide, by decide, by decide, by decide⟩

/-- C8 amended: a row with a non-empty part_no reaches the validated output
whatever its weight cell holds, and a record whose weight fails to parse is
classified FAILED at write time in that cycle, with no remote call issued
and the mirror untouched. -/
theorem claim_c8 (sheetName : String) (i : Nat) (r : RawRow)
    (rest : List RawRow) (env : RemoteEnv) (sp : List ShopProduct)
    (sr : SheetRecord) (m : List MirrorRow) :
    (pyStrip r.part_no ≠ "" →
      normalizeRow i sheetName r ∈ get_all_products_aux sheetName i (r :: rest)) ∧
    (parseWeight sr.weight = none → sr.part_no ≠ "" →
      (syncStep env sp sr m).outcome = Outcome.failed ∧
      (syncStep env sp sr m).calls = [] ∧ (syncStep env sp sr m).mirror = m) := by
  constructor
  · intro h
    have hb : rowIsBlank r = false := by
      simp [rowIsBlank, h]
    simp [get_all_products_aux, hb, validate_product_record, normalizeRow, h]
  · intro hw hne
    rcases hf : find_product_by_sku sr.part_no sp with _ | p <;>
      simp [syncStep, hne, hf, create_shopify_product, update_shopify_product, hw]

/-- C8 witness: the unparsable-weight row is kept by the reader and its
record fails at write time. -/
theorem claim_c8_witness :
    normalizeRow 2 "VOIP" rowW1 ∈ get_all_products_aux "VOIP" 2 [rowW1] ∧
    (syncStep envEmptyOk [] recW1 []).outcome = Outcome.failed := by
  have h := claim_c8 "VOIP" 2 rowW1 [] envEmptyOk [] recW1 []
  exact ⟨h.1 (by decide), (h.2 (by decide) (by decide)).1⟩
